import Mathlib

/-!
Verification of the dpLGAR repository's natural-language specification
against a shallow embedding of its Python sources.

Numbers are modelled as exact rationals (`ℚ`); torch tensor arithmetic is
elementwise rational arithmetic; Python dictionaries are modelled as
functions `String → Option ℕ` built by successive overwriting insertion;
Python exceptions are modelled with `Except`.

Components of the engine that the spec describes but whose code is not
under `src/` (the `MassBalance` class, the wetting-front ledger, the
retention-relation helpers in `lgartorch.models.physics.utils`, the
texture-query path) are modelled from the spec's own words; each such
definition carries a doc comment starting with `Modelled from the spec:`.
-/

namespace DpLGAR

/-! ## Python primitives -/

/-- Python / torch errors relevant to the embedded code paths. -/
inductive PyError where
  | NameError : String → PyError
  | AttributeError : String → PyError
  | IndexError : PyError
deriving DecidableEq

/-- Python `int()` applied to a rational: truncation toward zero. -/
def pyInt (q : ℚ) : ℤ := if 0 ≤ q then ⌊q⌋ else ⌈q⌉

/-- torch.clamp(x, min := lo, max := hi): first the lower, then the upper bound. -/
def clamp (x lo hi : ℚ) : ℚ := min (max x lo) hi

/-- Indexing the first dimension of a 2-d tensor, torch semantics:
negative indices wrap once by the dimension size, anything still out of
range raises IndexError. -/
def tensorRow (rows : List (List ℚ)) (i : ℤ) : Except PyError (List ℚ) :=
  let n : ℤ := (rows.length : ℤ)
  let j : ℤ := if i < 0 then i + n else i
  if 0 ≤ j ∧ j < n then .ok (rows.getD j.toNat []) else .error .IndexError

/-- One overwriting insertion step of a Python dict comprehension
`{texture: idx for idx, texture in enumerate(values)}`: a later pair with
the same key overwrites the earlier binding. -/
def dictStep (m : String → Option ℕ) (p : ℕ × String) : String → Option ℕ :=
  fun k => if k = p.2 then some p.1 else m k

/-- The dict built from an enumerated list of keys. -/
def dictOfEnum (l : List (ℕ × String)) : String → Option ℕ :=
  l.foldl dictStep (fun _ => none)

/-! ## Mass Balance Ledger and the Column Stepper loop

`dpLGAR.modelzoo.physics.MassBalance` (imported by
`dpLGAR/agents/SyntheticAgent.py`) and the subcycle loop inside the model
are not under `src/`; they are modelled from the spec (§3, §4.5, §4.6). -/

/-- Modelled from the spec: the Mass Balance Ledger of §3/§4.5 — cumulative
precipitation, infiltration, runoff, AET, PET, percolation, and current
column storage (the class `MassBalance` is not under `src/`). -/
structure MassBalance where
  volprecip : ℚ
  volin : ℚ
  volrunoff : ℚ
  volAET : ℚ
  volPET : ℚ
  volrech : ℚ
  volstorage : ℚ

/-- The water amounts one subcycle moves: precipitation split into
infiltration plus runoff, AET extracted, PET demanded, percolation leaving
the column base. -/
structure SubcycleFlux where
  precip : ℚ
  infiltration : ℚ
  runoff : ℚ
  aet : ℚ
  pet : ℚ
  percolation : ℚ

/-- Modelled from the spec: the once-per-subcycle ledger update of §4.5 —
each cumulative total accumulates its subcycle amount, and storage changes
by the subcycle water budget (infiltration in, AET and percolation out);
the method `MassBalance.change_mass` is not under `src/`. -/
def change_mass (mb : MassBalance) (f : SubcycleFlux) : MassBalance :=
  { mb with
    volprecip := mb.volprecip + f.precip
    volin := mb.volin + f.infiltration
    volrunoff := mb.volrunoff + f.runoff
    volAET := mb.volAET + f.aet
    volPET := mb.volPET + f.pet
    volrech := mb.volrech + f.percolation
    volstorage := mb.volstorage + f.infiltration - f.aet - f.percolation }

/-- A run of the ledger over a sequence of subcycles, applying
`change_mass` exactly once per subcycle (the loop of
`SyntheticAgent.run`, with the subcycle granularity of spec §4.6). -/
def runLedger (mb : MassBalance) (fs : List SubcycleFlux) : MassBalance :=
  fs.foldl change_mass mb

/-- Cumulative total of one flux component over a run. -/
def cum (g : SubcycleFlux → ℚ) (fs : List SubcycleFlux) : ℚ :=
  (fs.map g).sum

/-! ## Wetting fronts and merge -/

/-- A wetting front: its depth (cm from the surface) and volumetric
moisture content θ of the span it controls. -/
structure Front where
  depth : ℚ
  theta : ℚ

/-- Water held by a front over the span it controls, from the depth of the
front above it down to its own depth (spec §4.5: storage is the sum over
all fronts of θ × the depth span each controls). -/
def frontWater (dAbove : ℚ) (f : Front) : ℚ := f.theta * (f.depth - dAbove)

/-- Modelled from the spec: `merge(shallow, deep)` of §4.2 — one front at
the deeper front's depth whose moisture content is the thickness-weighted
average of the two fronts' water content over the spans each previously
occupied; the merge code is not under `src/`. `dAbove` is the depth of the
front above the shallow one (the surface, 0, when none). -/
def merge (dAbove : ℚ) (shallow deep : Front) : Front :=
  { depth := deep.depth
    theta := (shallow.theta * (shallow.depth - dAbove)
        + deep.theta * (deep.depth - shallow.depth)) / (deep.depth - dAbove) }

/-! ## SyntheticAgent configuration (src/dpLGAR/agents/SyntheticAgent.py) -/

/-- The configuration fields `SyntheticAgent.__init__` reads when deriving
the subcycle count: `cfg.models.subcycle_length`,
`cfg.models.forcing_resolution` (both in seconds) and
`cfg.conversions.hr_to_sec`. -/
structure SyntheticCfg where
  subcycle_length : ℚ
  forcing_resolution : ℚ
  hr_to_sec : ℚ

/-- subcycle_length_h = subcycle_length * (1 / hr_to_sec)  (SyntheticAgent.__init__). -/
def subcycle_length_h (c : SyntheticCfg) : ℚ :=
  c.subcycle_length * (1 / c.hr_to_sec)

/-- forcing_resolution_h = forcing_resolution / hr_to_sec  (SyntheticAgent.__init__). -/
def forcing_resolution_h (c : SyntheticCfg) : ℚ :=
  c.forcing_resolution / c.hr_to_sec

/-- num_subcycles = int(forcing_resolution_h / subcycle_length_h)  (SyntheticAgent.__init__). -/
def num_subcycles (c : SyntheticCfg) : ℤ :=
  pyInt (forcing_resolution_h c / subcycle_length_h c)

/-- The agent state the run loop of `SyntheticAgent.run` threads: its
configuration and its mass-balance ledger. -/
structure AgentState where
  cfg : SyntheticCfg
  mass_balance : MassBalance

/-- One iteration of the loop body of `SyntheticAgent.run`: the model is
stepped and `self.mass_balance.change_mass(self.model)` is called once;
nothing in the loop writes to `self.cfg`. -/
def runStep (s : AgentState) (f : SubcycleFlux) : AgentState :=
  { s with mass_balance := change_mass s.mass_balance f }

/-- The whole run loop of `SyntheticAgent.run`. -/
def runAgent (s : AgentState) (fs : List SubcycleFlux) : AgentState :=
  fs.foldl runStep s

/-! ## AET extractor (src/lgartorch/models/physics/lgar/aet.py) -/

/-- Modelled from the spec: the retention-relation helpers imported from
`lgartorch.models.physics.utils` (not under `src/`): `calc_theta_from_h h
alpha n m theta_e theta_r`, `calc_se_from_theta theta theta_e theta_r`,
`calc_h_from_se se alpha m n`. They are kept abstract; every statement
about `calculate_aet` holds for all of them. -/
structure AetUtils where
  calc_theta_from_h : ℚ → ℚ → ℚ → ℚ → ℚ → ℚ → ℚ
  calc_se_from_theta : ℚ → ℚ → ℚ → ℚ
  calc_h_from_se : ℚ → ℚ → ℚ → ℚ → ℚ

/-- The two configuration scalars `calculate_aet` reads from
`global_params`. -/
structure GlobalParams where
  relative_moisture_at_which_PET_equals_AET : ℚ
  wilting_point_psi_cm : ℚ

/-- calculate_aet of src/lgartorch/models/physics/lgar/aet.py, line for
line: theta_fc, wp_head_theta, theta_wp (theta_50), se, psi_wp_cm, then
h_ratio = 1 + (psi_cm / psi_wp_cm)^3, the demand pet * (1 / h_ratio), and
the final torch.clamp to [0, pet]. -/
def calculate_aet (u : AetUtils) (g : GlobalParams)
    (pet psi_cm theta_e theta_r m alpha n : ℚ) : ℚ :=
  let theta_fc :=
    (theta_e - theta_r) * g.relative_moisture_at_which_PET_equals_AET + theta_r
  let wp_head_theta :=
    u.calc_theta_from_h g.wilting_point_psi_cm alpha n m theta_e theta_r
  let theta_wp := (theta_fc - wp_head_theta) * (1 / 2) + wp_head_theta
  let se := u.calc_se_from_theta theta_wp theta_e theta_r
  let psi_wp_cm := u.calc_h_from_se se alpha m n
  let h_ratio := 1 + (psi_cm / psi_wp_cm) ^ 3
  let actual_ET_demand_ := pet * (1 / h_ratio)
  clamp actual_ET_demand_ 0 pet

/-- The head h₅₀ at which demand is halved, exactly as
`calculate_aet` computes `psi_wp_cm` from the layer's
field-capacity/wilting-point moisture contents (aet.py lines 35-43). -/
def aetH50 (u : AetUtils) (g : GlobalParams)
    (theta_e theta_r m alpha n : ℚ) : ℚ :=
  let theta_fc :=
    (theta_e - theta_r) * g.relative_moisture_at_which_PET_equals_AET + theta_r
  let wp_head_theta :=
    u.calc_theta_from_h g.wilting_point_psi_cm alpha n m theta_e theta_r
  let theta_wp := (theta_fc - wp_head_theta) * (1 / 2) + wp_head_theta
  let se := u.calc_se_from_theta theta_wp theta_e theta_r
  u.calc_h_from_se se alpha m n

/-- The spec's S-curve formula read literally, cube applied to
(1 + h / h₅₀): AET = PET · 1 / (1 + (h / h₅₀))³. -/
def aet_spec_formula (pet h h50 : ℚ) : ℚ :=
  pet * (1 / (1 + h / h50) ^ 3)

/-! ## Data (src/lgartorch/data/Data.py) -/

/-- Modelled from the spec: the closed-form helper functions imported from
`lgartorch.models.physics.utils` (not under `src/`), kept abstract with the
argument lists the source passes: `calc_theta_from_h h alpha n m theta_e
theta_r`, `calc_bc_lambda n`, `calc_bc_psib alpha n`,
`calc_h_min_cm bc_lambda bc_psib_cm`. -/
structure SoilUtils where
  calc_theta_from_h : ℚ → ℚ → ℚ → ℚ → ℚ → ℚ → ℚ
  calc_bc_lambda : ℚ → ℚ
  calc_bc_psib : ℚ → ℚ → ℚ
  calc_h_min_cm : ℚ → ℚ → ℚ

/-- One row of the soils dataframe as read from disk: the Texture column
and the numeric columns `generate_soil_metrics` consumes. -/
structure SoilRowIn where
  texture : String
  alpha : ℚ
  n : ℚ
  m : ℚ
  theta_e : ℚ
  theta_r : ℚ
  ks : ℚ

/-- One row of the tensor `self.c` stacked by `generate_soil_metrics`, in
the column order of `Data.column_map`. -/
structure SoilRowOut where
  theta_e : ℚ
  theta_r : ℚ
  theta_wp : ℚ
  alpha : ℚ
  n : ℚ
  m : ℚ
  k_sat : ℚ
  ksat_cm_per_h : ℚ
  bc_lambda : ℚ
  bc_psib_cm : ℚ
  h_min_cm : ℚ

/-- The per-row computation of `Data.generate_soil_metrics`
(src/lgartorch/data/Data.py lines 124-155): ksat_cm_per_h = k_sat *
cfg.constants.frozen_factor, theta_wp = calc_theta_from_h(h, alpha, n, m,
theta_e, theta_r), bc_lambda = calc_bc_lambda(n), bc_psib_cm =
calc_bc_psib(alpha, n), h_min_cm = calc_h_min_cm(bc_lambda, bc_psib_cm). -/
def soilMetricsRow (u : SoilUtils) (wilting_point_psi frozen_factor : ℚ)
    (r : SoilRowIn) : SoilRowOut :=
  let ksat_cm_per_h := r.ks * frozen_factor
  let theta_wp :=
    u.calc_theta_from_h wilting_point_psi r.alpha r.n r.m r.theta_e r.theta_r
  let bc_lambda := u.calc_bc_lambda r.n
  let bc_psib_cm := u.calc_bc_psib r.alpha r.n
  let h_min_cm := u.calc_h_min_cm bc_lambda bc_psib_cm
  ⟨r.theta_e, r.theta_r, theta_wp, r.alpha, r.n, r.m, r.ks, ksat_cm_per_h,
    bc_lambda, bc_psib_cm, h_min_cm⟩

/-- Data.generate_soil_metrics: the elementwise tensor arithmetic over the
soils dataframe, one derived row per input row. -/
def generate_soil_metrics (u : SoilUtils) (wilting_point_psi frozen_factor : ℚ)
    (rows : List SoilRowIn) : List SoilRowOut :=
  rows.map (soilMetricsRow u wilting_point_psi frozen_factor)

/-- The Python dict comprehension `{texture: idx for idx, texture in
enumerate(texture_values)}` of `Data.__init__`: `i` is the running
enumerate counter, a later duplicate key overwrites an earlier binding. -/
def dictBuild (i : ℕ) (ts : List String) (m : String → Option ℕ) :
    String → Option ℕ :=
  match ts with
  | [] => m
  | t :: rest => dictBuild (i + 1) rest (fun k => if k = t then some i else m k)

/-- Data.texture_map as built in `Data.__init__` (line 56). -/
def buildTextureMap (ts : List String) : String → Option ℕ :=
  dictBuild 0 ts (fun _ => none)

/-- The attributes of a `Data` object that matter to its methods:
`self.x` (torch.stack([precip, pet]), so a 2-row tensor), the texture
dict, the derived soils tensor `self.c`, and `self.y` — which
`Data.__init__` never assigns, held as an `Option` that the constructor
leaves at `none`. -/
structure DataState where
  x : List (List ℚ)
  texture_map : String → Option ℕ
  c : List SoilRowOut
  y : Option (List (List ℚ))

/-- Data.__init__ (src/lgartorch/data/Data.py lines 36-70): stacks precip
and PET into `x`, builds `texture_map` from the soils dataframe's Texture
column, computes `c = generate_soil_metrics(cfg)` once, and never assigns
an attribute named `y`. -/
def dataInit (u : SoilUtils) (precip pet : List ℚ) (soils : List SoilRowIn)
    (wilting_point_psi frozen_factor : ℚ) : DataState :=
  { x := [precip, pet]
    texture_map := buildTextureMap (soils.map (fun r => r.texture))
    c := generate_soil_metrics u wilting_point_psi frozen_factor soils
    y := none }

/-- Data.__getitem__ (lines 73-79): evaluates `self.x[index, :]` first
(torch indexing, may raise IndexError), then reads the attribute `self.y`
(AttributeError when it was never assigned), then `self.y[index, :]`. -/
def dataGetItem (d : DataState) (i : ℤ) :
    Except PyError (List ℚ × List ℚ) :=
  match tensorRow d.x i with
  | .error e => .error e
  | .ok xrow =>
    match d.y with
    | none => .error (.AttributeError "y")
    | some yrows =>
      match tensorRow yrows i with
      | .error e => .error e
      | .ok yrow => .ok (xrow, yrow)

/-- Data.__len__ (lines 81-85): `len(self.x)`, the size of the first
dimension of the stacked tensor. -/
def dataLen (d : DataState) : ℕ := d.x.length

/-- Failure mode of the Soil Parameter Table query (spec §4.1). -/
inductive TextureLookupError where
  | UnknownTextureError : TextureLookupError
deriving DecidableEq

/-- Modelled from the spec: querying the Soil Parameter Table by texture
identifier (§4.1) — the query path and the `UnknownTextureError` class are
not under `src/`; the dict it queries is `Data.texture_map` (line 56).
A present identifier yields its row index, an absent one fails with
`UnknownTextureError`. -/
def textureLookup (d : DataState) (t : String) :
    Except TextureLookupError ℕ :=
  match d.texture_map t with
  | some i => .ok i
  | none => .error .UnknownTextureError

/-! ## LGARBmi.finalize (src/src/LGARBmi.py) -/

/-- The names bound when `LGARBmi.finalize` executes: its parameter
`self`, and the module-level names of src/src/LGARBmi.py (imports, `log`,
and the class itself). -/
def lgarBmiBoundNames : List String :=
  ["self", "Bmi", "logging", "OmegaConf", "DictConfig", "time", "torch",
    "tqdm", "Tuple", "read_forcing_data", "LGAR", "log", "LGARBmi"]

/-- The plain names the body of `LGARBmi.finalize` (lines 131-154)
references, in evaluation order: the `self._end_time = time.perf_counter()`
assignment, the `log.info` calls, then the f-string interpolations
`volstart`, `volprecip`, `volin`, `volend`, `volon`, `volrunoff`,
`volrech`, `volAET`, `volPET`, `global_error_cm`. -/
def finalizeReferencedNames : List String :=
  ["self", "time", "log", "log", "log", "self", "self", "log",
    "volstart", "volprecip", "volin", "volend", "volon", "volrunoff",
    "volrech", "volAET", "volPET", "global_error_cm"]

/-- Python name resolution during `finalize`: a referenced name not bound
locally, globally or as a builtin raises NameError at its first use. -/
def evalNameSeq : List String → Except PyError Unit
  | [] => .ok ()
  | n :: rest =>
    if lgarBmiBoundNames.contains n then evalNameSeq rest
    else .error (.NameError n)

/-- Running the body of `LGARBmi.finalize`. -/
def lgarBmiFinalize : Except PyError Unit :=
  evalNameSeq finalizeReferencedNames

/-! ## Concrete instances used by witnesses and counterexamples -/

/-- A concrete instantiation of the abstract AET helpers; its
`calc_h_from_se` returns the constant head 1 so that h / h₅₀ = psi_cm. -/
def uEx : AetUtils :=
  ⟨fun _ _ _ _ _ _ => 0, fun _ _ _ => 0, fun _ _ _ _ => 1⟩

/-- Concrete global parameters for the AET witnesses. -/
def gEx : GlobalParams := ⟨1 / 2, 1⟩

/-- A concrete instantiation of the abstract soil helpers. -/
def uSoilEx : SoilUtils :=
  ⟨fun _ _ _ _ _ _ => 0, fun n => n, fun a _ => a, fun l p => l + p⟩

/-- A one-row soils table with texture "clay". -/
def soilsEx : List SoilRowIn := [⟨"clay", 1, 2, 1 / 2, 1 / 2, 1 / 10, 1⟩]

/-- A concretely constructed `Data` object. -/
def dEx : DataState := dataInit uSoilEx [1, 2] [3, 4] soilsEx 1 1

/-- An all-zero initial mass-balance ledger. -/
def mbEx : MassBalance := ⟨0, 0, 0, 0, 0, 0, 0⟩

/-- One concrete subcycle: 1 cm precipitation, all infiltrated, no
runoff, no AET, no PET demand, no percolation. -/
def fEx : SubcycleFlux := ⟨1, 1, 0, 0, 0, 0⟩

/-- A concrete agent: 900 s subcycles, 3600 s forcing resolution,
3600 s per hour. -/
def sEx : AgentState := ⟨⟨900, 3600, 3600⟩, mbEx⟩

/-! ## Ledger lemmas -/

theorem cum_cons (g : SubcycleFlux → ℚ) (f : SubcycleFlux)
    (fs : List SubcycleFlux) : cum g (f :: fs) = g f + cum g fs := by
  simp [cum]

theorem cum_nonneg (g : SubcycleFlux → ℚ) (fs : List SubcycleFlux)
    (h : ∀ f ∈ fs, 0 ≤ g f) : 0 ≤ cum g fs := by
  unfold cum
  apply List.sum_nonneg
  intro x hx
  obtain ⟨f, hf, rfl⟩ := List.mem_map.mp hx
  exact h f hf

theorem runLedger_volprecip (mb : MassBalance) (fs : List SubcycleFlux) :
    (runLedger mb fs).volprecip = mb.volprecip + cum (fun f => f.precip) fs := by
  induction fs generalizing mb with
  | nil => simp [runLedger, cum]
  | cons f t ih =>
    show (runLedger (change_mass mb f) t).volprecip = _
    rw [ih, cum_cons]
    simp [change_mass]
    ring

theorem runLedger_volin (mb : MassBalance) (fs : List SubcycleFlux) :
    (runLedger mb fs).volin = mb.volin + cum (fun f => f.infiltration) fs := by
  induction fs generalizing mb with
  | nil => simp [runLedger, cum]
  | cons f t ih =>
    show (runLedger (change_mass mb f) t).volin = _
    rw [ih, cum_cons]
    simp [change_mass]
    ring

theorem runLedger_volrunoff (mb : MassBalance) (fs : List SubcycleFlux) :
    (runLedger mb fs).volrunoff = mb.volrunoff + cum (fun f => f.runoff) fs := by
  induction fs generalizing mb with
  | nil => simp [runLedger, cum]
  | cons f t ih =>
    show (runLedger (change_mass mb f) t).volrunoff = _
    rw [ih, cum_cons]
    simp [change_mass]
    ring

theorem runLedger_volAET (mb : MassBalance) (fs : List SubcycleFlux) :
    (runLedger mb fs).volAET = mb.volAET + cum (fun f => f.aet) fs := by
  induction fs generalizing mb with
  | nil => simp [runLedger, cum]
  | cons f t ih =>
    show (runLedger (change_mass mb f) t).volAET = _
    rw [ih, cum_cons]
    simp [change_mass]
    ring

theorem runLedger_volPET (mb : MassBalance) (fs : List SubcycleFlux) :
    (runLedger mb fs).volPET = mb.volPET + cum (fun f => f.pet) fs := by
  induction fs generalizing mb with
  | nil => simp [runLedger, cum]
  | cons f t ih =>
    show (runLedger (change_mass mb f) t).volPET = _
    rw [ih, cum_cons]
    simp [change_mass]
    ring

theorem runLedger_volrech (mb : MassBalance) (fs : List SubcycleFlux) :
    (runLedger mb fs).volrech = mb.volrech + cum (fun f => f.percolation) fs := by
  induction fs generalizing mb with
  | nil => simp [runLedger, cum]
  | cons f t ih =>
    show (runLedger (change_mass mb f) t).volrech = _
    rw [ih, cum_cons]
    simp [change_mass]
    ring

theorem runLedger_volstorage (mb : MassBalance) (fs : List SubcycleFlux) :
    (runLedger mb fs).volstorage = mb.volstorage
      + cum (fun f => f.infiltration) fs - cum (fun f => f.aet) fs
      - cum (fun f => f.percolation) fs := by
  induction fs generalizing mb with
  | nil => simp [runLedger, cum]
  | cons f t ih =>
    show (runLedger (change_mass mb f) t).volstorage = _
    rw [ih, cum_cons, cum_cons, cum_cons]
    simp [change_mass]
    ring

theorem runLedger_append (mb : MassBalance) (l1 l2 : List SubcycleFlux) :
    runLedger mb (l1 ++ l2) = runLedger (runLedger mb l1) l2 := by
  simp [runLedger, List.foldl_append]

theorem merge_water_eq (dAbove : ℚ) (s d : Front)
    (h1 : dAbove < s.depth) (h2 : s.depth < d.depth) :
    frontWater dAbove (merge dAbove s d)
      = frontWater dAbove s + frontWater s.depth d := by
  have hne : d.depth - dAbove ≠ 0 := by
    have : dAbove < d.depth := lt_trans h1 h2
    exact sub_ne_zero.mpr (ne_of_gt this)
  unfold frontWater merge
  rw [div_mul_cancel₀ _ hne]

/-! ## Claim theorems: C1 and C4 -/

/-- C1: for every run with zero cumulative surface runoff and zero
cumulative percolation, final total column storage minus initial storage
equals cumulative infiltration minus cumulative AET, to within 1e-9 cm;
and the merge operation preserves total column water. -/
theorem mass_conservation_C1 (mb0 : MassBalance) (fs : List SubcycleFlux)
    (hrunoff : cum (fun f => f.runoff) fs = 0)
    (hperc : cum (fun f => f.percolation) fs = 0) :
    |((runLedger mb0 fs).volstorage - mb0.volstorage)
        - (cum (fun f => f.infiltration) fs - cum (fun f => f.aet) fs)|
      ≤ 1 / 1000000000
    ∧ ∀ (dAbove : ℚ) (s d : Front), dAbove < s.depth → s.depth < d.depth →
        frontWater dAbove (merge dAbove s d)
          = frontWater dAbove s + frontWater s.depth d := by
  constructor
  · rw [runLedger_volstorage, hperc]
    have h0 : (mb0.volstorage + cum (fun f => f.infiltration) fs
        - cum (fun f => f.aet) fs - 0) - mb0.volstorage
        - (cum (fun f => f.infiltration) fs - cum (fun f => f.aet) fs) = 0 := by
      ring
    rw [h0]
    norm_num
  · exact fun dAbove s d h1 h2 => merge_water_eq dAbove s d h1 h2

/-- C1 witness at a concrete run of one subcycle with zero runoff and
zero percolation, from an all-zero ledger. -/
theorem mass_conservation_C1_witness :
    |((runLedger mbEx [fEx]).volstorage - mbEx.volstorage)
        - (cum (fun f => f.infiltration) [fEx] - cum (fun f => f.aet) [fEx])|
      ≤ 1 / 1000000000
    ∧ ∀ (dAbove : ℚ) (s d : Front), dAbove < s.depth → s.depth < d.depth →
        frontWater dAbove (merge dAbove s d)
          = frontWater dAbove s + frontWater s.depth d :=
  mass_conservation_C1 mbEx [fEx] (by simp [cum, fEx]) (by simp [cum, fEx])

/-- C4: the ledger's cumulative totals (precipitation, infiltration,
percolation, AET, PET, runoff, storage) are each updated exactly once per
subcycle — after any run they equal the initial value plus the sum of the
one-per-subcycle contributions — and are never reset during a run: after
any earlier portion of the run, each cumulative total is never above what
the full run accumulates (given nonnegative subcycle amounts). -/
theorem ledger_updates_C4 (mb0 : MassBalance) (fs : List SubcycleFlux) :
    ((runLedger mb0 fs).volprecip = mb0.volprecip + cum (fun f => f.precip) fs
      ∧ (runLedger mb0 fs).volin = mb0.volin + cum (fun f => f.infiltration) fs
      ∧ (runLedger mb0 fs).volrech = mb0.volrech + cum (fun f => f.percolation) fs
      ∧ (runLedger mb0 fs).volAET = mb0.volAET + cum (fun f => f.aet) fs
      ∧ (runLedger mb0 fs).volPET = mb0.volPET + cum (fun f => f.pet) fs
      ∧ (runLedger mb0 fs).volrunoff = mb0.volrunoff + cum (fun f => f.runoff) fs
      ∧ (runLedger mb0 fs).volstorage = mb0.volstorage
          + cum (fun f => f.infiltration) fs - cum (fun f => f.aet) fs
          - cum (fun f => f.percolation) fs)
    ∧ ∀ l1 l2 : List SubcycleFlux, fs = l1 ++ l2 →
        (∀ f ∈ l2, 0 ≤ f.precip ∧ 0 ≤ f.infiltration ∧ 0 ≤ f.percolation
          ∧ 0 ≤ f.aet ∧ 0 ≤ f.pet ∧ 0 ≤ f.runoff) →
        (runLedger mb0 l1).volprecip ≤ (runLedger mb0 fs).volprecip
        ∧ (runLedger mb0 l1).volin ≤ (runLedger mb0 fs).volin
        ∧ (runLedger mb0 l1).volrech ≤ (runLedger mb0 fs).volrech
        ∧ (runLedger mb0 l1).volAET ≤ (runLedger mb0 fs).volAET
        ∧ (runLedger mb0 l1).volPET ≤ (runLedger mb0 fs).volPET
        ∧ (runLedger mb0 l1).volrunoff ≤ (runLedger mb0 fs).volrunoff := by
  refine ⟨⟨runLedger_volprecip mb0 fs, runLedger_volin mb0 fs,
    runLedger_volrech mb0 fs, runLedger_volAET mb0 fs,
    runLedger_volPET mb0 fs, runLedger_volrunoff mb0 fs,
    runLedger_volstorage mb0 fs⟩, ?_⟩
  intro l1 l2 hsplit hnn
  subst hsplit
  rw [runLedger_append]
  refine ⟨?_, ?_, ?_, ?_, ?_, ?_⟩
  · rw [runLedger_volprecip (runLedger mb0 l1) l2]
    have := cum_nonneg (fun f => f.precip) l2 (fun f hf => (hnn f hf).1)
    linarith
  · rw [runLedger_volin (runLedger mb0 l1) l2]
    have := cum_nonneg (fun f => f.infiltration) l2 (fun f hf => (hnn f hf).2.1)
    linarith
  · rw [runLedger_volrech (runLedger mb0 l1) l2]
    have := cum_nonneg (fun f => f.percolation) l2 (fun f hf => (hnn f hf).2.2.1)
    linarith
  · rw [runLedger_volAET (runLedger mb0 l1) l2]
    have := cum_nonneg (fun f => f.aet) l2 (fun f hf => (hnn f hf).2.2.2.1)
    linarith
  · rw [runLedger_volPET (runLedger mb0 l1) l2]
    have := cum_nonneg (fun f => f.pet) l2 (fun f hf => (hnn f hf).2.2.2.2.1)
    linarith
  · rw [runLedger_volrunoff (runLedger mb0 l1) l2]
    have := cum_nonneg (fun f => f.runoff) l2 (fun f hf => (hnn f hf).2.2.2.2.2)
    linarith

/-- C4 witness at a concrete one-subcycle run, discharging the split and
nonnegativity hypotheses of the never-reset part. -/
theorem ledger_updates_C4_witness :
    (runLedger mbEx [fEx]).volprecip = mbEx.volprecip + cum (fun f => f.precip) [fEx]
    ∧ (runLedger mbEx []).volprecip ≤ (runLedger mbEx [fEx]).volprecip := by
  have h := ledger_updates_C4 mbEx [fEx]
  refine ⟨h.1.1, (h.2 [] [fEx] rfl ?_).1⟩
  intro f hf
  simp only [List.mem_singleton] at hf
  subst hf
  refine ⟨?_, ?_, ?_, ?_, ?_, ?_⟩ <;> simp [fEx]

/-! ## Claim theorem: C5 -/

theorem runAgent_cfg (s : AgentState) (fs : List SubcycleFlux) :
    (runAgent s fs).cfg = s.cfg := by
  induction fs generalizing s with
  | nil => rfl
  | cons f t ih =>
    show (runAgent (runStep s f) t).cfg = s.cfg
    rw [ih]
    rfl

/-- C5: each outer timestep is subdivided into a fixed integer number of
subcycles, the integer part of forcing_resolution_h divided by
subcycle_length_h — equal to int(forcing_resolution / subcycle_length)
from the configured values — and this number is constant for the whole
run: at any point of the run loop it is still the same integer derived
from the configuration. -/
theorem subcycles_C5 (s : AgentState) (fs : List SubcycleFlux)
    (h : s.cfg.hr_to_sec ≠ 0) :
    num_subcycles (runAgent s fs).cfg
      = pyInt (forcing_resolution_h s.cfg / subcycle_length_h s.cfg)
    ∧ num_subcycles (runAgent s fs).cfg
      = pyInt (s.cfg.forcing_resolution / s.cfg.subcycle_length) := by
  rw [runAgent_cfg]
  refine ⟨rfl, ?_⟩
  unfold num_subcycles forcing_resolution_h subcycle_length_h
  congr 1
  rw [mul_one_div]
  exact div_div_div_cancel_right₀ h _ _

/-- C5 witness: the concrete agent with 900 s subcycles at a 3600 s
forcing resolution keeps num_subcycles = 4 across a run step. -/
theorem subcycles_C5_witness :
    num_subcycles (runAgent sEx [fEx]).cfg
      = pyInt (forcing_resolution_h sEx.cfg / subcycle_length_h sEx.cfg)
    ∧ num_subcycles (runAgent sEx [fEx]).cfg
      = pyInt (sEx.cfg.forcing_resolution / sEx.cfg.subcycle_length) :=
  subcycles_C5 sEx [fEx] (by norm_num [sEx])

/-! ## Claim theorems: C2 and C3 -/

/-- C2: for every input PET ≥ 0 (and any retention helpers, parameters
and capillary head), the actual evapotranspiration returned by
calculate_aet satisfies 0 ≤ AET ≤ PET. -/
theorem aet_bound_C2 (u : AetUtils) (g : GlobalParams)
    (pet psi_cm theta_e theta_r m alpha n : ℚ) (hpet : 0 ≤ pet) :
    0 ≤ calculate_aet u g pet psi_cm theta_e theta_r m alpha n
    ∧ calculate_aet u g pet psi_cm theta_e theta_r m alpha n ≤ pet :=
  ⟨le_min (le_max_right _ _) hpet, min_le_right _ _⟩

/-- C2 witness at PET = 2 with concrete helpers and parameters. -/
theorem aet_bound_C2_witness :
    0 ≤ calculate_aet uEx gEx 2 1 1 0 1 1 1
    ∧ calculate_aet uEx gEx 2 1 1 0 1 1 1 ≤ 2 :=
  aet_bound_C2 uEx gEx 2 1 1 0 1 1 1 (by norm_num)

/-- C3 counterexample: at PET = 8 and capillary head h equal to the
halving head h₅₀ (both 1 with the concrete helpers), the code returns
PET/2 = 4, while the claim's formula PET · 1 / (1 + (h / h₅₀))³ gives
PET/8 = 1; so the claim's formula does not compute the code's AET. -/
theorem aet_formula_C3_counterexample :
    calculate_aet uEx gEx 8 1 1 0 1 1 1
      ≠ aet_spec_formula 8 1 (aetH50 uEx gEx 1 0 1 1 1) := by
  norm_num [calculate_aet, aet_spec_formula, aetH50, clamp, uEx, gEx]

/-- C3 amended: the actual ET is computed by the S-shaped curve with the
cube applied to the head ratio, AET = PET · 1 / (1 + (h / h₅₀)³), clamped
to [0, PET], where h₅₀ is the head the source derives from the layer's
field-capacity/wilting-point moisture contents. -/
theorem aet_formula_C3_amended (u : AetUtils) (g : GlobalParams)
    (pet psi_cm theta_e theta_r m alpha n : ℚ) :
    calculate_aet u g pet psi_cm theta_e theta_r m alpha n
      = clamp (pet * (1 / (1 + (psi_cm / aetH50 u g theta_e theta_r m alpha n) ^ 3)))
          0 pet := rfl

/-! ## Claim theorem: C6 -/

/-- C6: the derived soil fields — bc_lambda, bc_psib_cm, h_min_cm, and
the frozen-adjusted ksat_cm_per_h = k_sat · frozen_factor — are computed
at load time, each row exactly once by the single map of
generate_soil_metrics, from the closed-form helpers applied to α and n;
and the runtime accessors (__getitem__, __len__) never recompute them:
their results do not depend on the stored derived tensor at all. -/
theorem soil_metrics_C6 (u : SoilUtils) (precip pet : List ℚ)
    (soils : List SoilRowIn) (wilting_point_psi frozen_factor : ℚ) :
    ((dataInit u precip pet soils wilting_point_psi frozen_factor).c
        = soils.map (soilMetricsRow u wilting_point_psi frozen_factor))
    ∧ (∀ r : SoilRowIn,
        (soilMetricsRow u wilting_point_psi frozen_factor r).ksat_cm_per_h
            = r.ks * frozen_factor
        ∧ (soilMetricsRow u wilting_point_psi frozen_factor r).bc_lambda
            = u.calc_bc_lambda r.n
        ∧ (soilMetricsRow u wilting_point_psi frozen_factor r).bc_psib_cm
            = u.calc_bc_psib r.alpha r.n
        ∧ (soilMetricsRow u wilting_point_psi frozen_factor r).h_min_cm
            = u.calc_h_min_cm (u.calc_bc_lambda r.n) (u.calc_bc_psib r.alpha r.n))
    ∧ (∀ (d : DataState) (cAlt : List SoilRowOut) (i : ℤ),
        dataGetItem { d with c := cAlt } i = dataGetItem d i
        ∧ dataLen { d with c := cAlt } = dataLen d) :=
  ⟨rfl, fun _ => ⟨rfl, rfl, rfl, rfl⟩, fun _ _ _ => ⟨rfl, rfl⟩⟩

/-! ## Dict lemmas and claim theorem C7 -/

theorem dictBuild_not_mem (ts : List String) (t : String) :
    ∀ (i : ℕ) (m : String → Option ℕ), t ∉ ts → dictBuild i ts m t = m t := by
  induction ts with
  | nil => intro i m _; rfl
  | cons a rest ih =>
    intro i m h
    simp only [List.mem_cons, not_or] at h
    show dictBuild (i + 1) rest (fun k => if k = a then some i else m k) t = m t
    rw [ih (i + 1) _ h.2]
    simp [h.1]

theorem dictBuild_mem (ts : List String) (t : String) :
    ∀ (i : ℕ) (m : String → Option ℕ), t ∈ ts →
      ∃ j, dictBuild i ts m t = some j := by
  induction ts with
  | nil => intro i m h; simp at h
  | cons a rest ih =>
    intro i m h
    show ∃ j, dictBuild (i + 1) rest (fun k => if k = a then some i else m k) t
      = some j
    by_cases ht : t ∈ rest
    · exact ih (i + 1) _ ht
    · have hta : t = a := by
        rcases List.mem_cons.mp h with h1 | h2
        · exact h1
        · exact absurd h2 ht
      rw [dictBuild_not_mem rest t (i + 1) _ ht]
      exact ⟨i, by simp [hta]⟩

theorem dataInit_texture_map (u : SoilUtils) (precip pet : List ℚ)
    (soils : List SoilRowIn) (wilting_point_psi frozen_factor : ℚ) :
    (dataInit u precip pet soils wilting_point_psi frozen_factor).texture_map
      = buildTextureMap (soils.map (fun r => r.texture)) := rfl

theorem buildTextureMap_eq (ts : List String) :
    buildTextureMap ts = dictBuild 0 ts (fun _ => none) := rfl

/-- C7: querying the Soil Parameter Table by a texture identifier
present in the table succeeds and returns a row index, and querying an
absent identifier fails with UnknownTextureError. -/
theorem texture_lookup_C7 (u : SoilUtils) (precip pet : List ℚ)
    (soils : List SoilRowIn) (wilting_point_psi frozen_factor : ℚ)
    (t : String) :
    (t ∈ soils.map (fun r => r.texture) →
      ∃ i, textureLookup
        (dataInit u precip pet soils wilting_point_psi frozen_factor) t = .ok i)
    ∧ (t ∉ soils.map (fun r => r.texture) →
      textureLookup (dataInit u precip pet soils wilting_point_psi frozen_factor) t
        = .error .UnknownTextureError) := by
  constructor
  · intro h
    obtain ⟨i, hi⟩ :=
      dictBuild_mem (soils.map (fun r => r.texture)) t 0 (fun _ => none) h
    refine ⟨i, ?_⟩
    unfold textureLookup
    rw [dataInit_texture_map, buildTextureMap_eq, hi]
  · intro h
    unfold textureLookup
    rw [dataInit_texture_map, buildTextureMap_eq,
      dictBuild_not_mem (soils.map (fun r => r.texture)) t 0 (fun _ => none) h]

/-- C7 witness on the one-row table: "clay" is found, "sand" fails with
UnknownTextureError. -/
theorem texture_lookup_C7_witness :
    (∃ i, textureLookup dEx "clay" = .ok i)
    ∧ textureLookup dEx "sand" = .error .UnknownTextureError := by
  constructor
  · exact (texture_lookup_C7 uSoilEx [1, 2] [3, 4] soilsEx 1 1 "clay").1
      (by simp [soilsEx])
  · exact (texture_lookup_C7 uSoilEx [1, 2] [3, 4] soilsEx 1 1 "sand").2
      (by simp [soilsEx])

/-! ## Claim theorem: C8 -/

/-- C8: the code of LGARBmi.finalize contradicts the documented closure
report — its first mass-balance f-string references the name `volstart`,
which is bound neither in the method nor at module level, so every call
raises NameError("volstart") before any report line after the timing
summary is produced; no closure report and no run output result. -/
theorem finalize_namerror_C8 :
    lgarBmiFinalize = .error (.NameError "volstart") := rfl

/-! ## Claim theorems: C9 and C10 -/

/-- C9 counterexample: on the concretely constructed Data object, index 2
is out of range for the first dimension of the stacked 2-row tensor
`self.x`, so `__getitem__(2)` raises IndexError — not AttributeError as
the claim states for every index. -/
theorem getitem_C9_counterexample :
    dataGetItem dEx 2 = .error .IndexError
    ∧ PyError.IndexError ≠ PyError.AttributeError "y" :=
  ⟨rfl, by decide⟩

/-- C9 amended: for every successfully constructed Data object and every
index i in range of the first dimension of the stacked forcing tensor
(-2 ≤ i < 2, torch semantics with negative wrapping), __getitem__ raises
AttributeError, because it reads self.y after indexing self.x and the
constructor never assigns an attribute named y. -/
theorem getitem_C9_amended (u : SoilUtils) (precip pet : List ℚ)
    (soils : List SoilRowIn) (wilting_point_psi frozen_factor : ℚ) (i : ℤ)
    (h1 : -2 ≤ i) (h2 : i < 2) :
    dataGetItem (dataInit u precip pet soils wilting_point_psi frozen_factor) i
      = .error (.AttributeError "y") := by
  interval_cases i <;> rfl

/-- C9 witness at index 0 of the concretely constructed Data object. -/
theorem getitem_C9_witness :
    dataGetItem (dataInit uSoilEx [1, 2] [3, 4] soilsEx 1 1) 0
      = .error (.AttributeError "y") :=
  getitem_C9_amended uSoilEx [1, 2] [3, 4] soilsEx 1 1 0 (by norm_num) (by norm_num)

/-- C10: for every successfully constructed Data object, __len__ returns
2 — the number of stacked forcing channels — regardless of how many
timesteps the precipitation and PET series contain. -/
theorem len_C10 (u : SoilUtils) (precip pet : List ℚ)
    (soils : List SoilRowIn) (wilting_point_psi frozen_factor : ℚ) :
    dataLen (dataInit u precip pet soils wilting_point_psi frozen_factor) = 2 :=
  rfl

end DpLGAR


